import Mathlib

/-!
Shallow embedding of `src/briefcase/platforms/android/apk.py` (the Android APK
backend: `ApkMixin`, `ApkBuildCommand`, `ApkRunCommand`), together with models
of the external collaborators the file calls into (`download_url`, the
`briefcase.integrations.adb` helpers), which are declared outside the staged
sources and are therefore modelled from the specification where needed.

Each method is embedded as a pure function from an explicit description of the
outside world (which files exist, how each external call would turn out) to the
pair of (the ordered trace of side effects the method performs, its result:
`Except.ok` for a normal return, `Except.error` for the Python exception that
escapes the method).
-/

namespace Apk

/-- A filesystem path, modelled as its list of components: `pathlib.Path`
objects are built in the source only by the `/` operator, which appends one
component. -/
abbrev FsPath := List String

/-- The `str(...)` conversion of a path: its components joined by the POSIX
separator, as on the Linux and macOS hosts the source targets. -/
def pathStr (p : FsPath) : String := String.intercalate "/" p

/-- The fields of the app config object (`BaseConfig`) that
`apk.py` reads: `app_name`, `formal_name`, `bundle`. -/
structure App where
  app_name : String
  formal_name : String
  bundle : String
  deriving DecidableEq, Repr

/-- One observable side effect of the embedded code, in the order performed:
console output, the network download, archive extraction, file deletion,
permission change, subprocess invocation (with or without an explicit
environment), and the three device-bridge helpers from
`briefcase.integrations.adb`. -/
inductive Effect where
  | print (text : String)
  | download (url : String) (download_path : FsPath)
  | extractall (zip_path : FsPath) (dest : FsPath)
  | unlink (path : FsPath)
  | chmod (path : FsPath) (mode : Nat)
  | subprocessRun (args : List String) (cwd : FsPath)
  | subprocessRunEnv (args : List String) (env : List (String × String)) (cwd : FsPath)
  | adbInstallApk (sdk : FsPath) (device : String) (apk_path : FsPath)
  | adbForceStopApp (sdk : FsPath) (device : String) (package : String)
  | adbStartApp (sdk : FsPath) (device : String) (package : String) (activity : String)
  deriving DecidableEq, Repr

/-- The exceptions that can escape the embedded methods:
`BriefcaseCommandError` and `NetworkFailure` from `briefcase.exceptions`,
Python's `AttributeError`, `subprocess.CalledProcessError` (raised by
`subprocess.run` with `check=True` on a non-zero exit), and a tool error
escaping a device-bridge helper. -/
inductive PyError where
  | briefcaseCommandError (message : String)
  | networkFailure (action : String)
  | attributeError (attr : String)
  | calledProcessError (args : List String)
  | adbCommandError (subcommand : String)
  deriving DecidableEq, Repr

/-- `ApkMixin.android_sdk_path` (lines 25-27):
`Path.home() / ".briefcase" / "tools" / "android_sdk"`. -/
def android_sdk_path (home : FsPath) : FsPath :=
  home ++ [".briefcase", "tools", "android_sdk"]

/-- `ApkMixin.binary_path` (lines 29-39): the fixed debug-APK location under
the platform directory. -/
def binary_path (platform_path : FsPath) (app : App) : FsPath :=
  platform_path
    ++ [app.formal_name, "app", "build", "outputs", "apk", "debug", "app-debug.apk"]

/-- `ApkMixin.distribution_path` (lines 41-42): delegates to `binary_path`. -/
def distribution_path (platform_path : FsPath) (app : App) : FsPath :=
  binary_path platform_path app

/-- Python `str.lower()` on the ASCII OS names `self.host_os` takes
("Linux", "Darwin", "Windows"): each character lowercased. -/
def pyLower (s : String) : String := String.mk (s.data.map Char.toLower)

/-- `ApkBuildCommand.android_sdk_url` (lines 93-102). -/
def android_sdk_url (host_os : String) : String :=
  "https://dl.google.com/android/repository/"
    ++ ("sdk-tools-" ++ pyLower host_os ++ "-4333796.zip")

/-- The attribute lookup `self.android_sdk_path_tmp` performed at line 70 of
the source. `ApkMixin` defines an attribute named `android_sdk_path` only
(lines 25-27), and no class in the repository defines an attribute named
`android_sdk_path_tmp`, so the lookup finds nothing and Python raises
`AttributeError` at that line. -/
def android_sdk_path_tmp : Option FsPath := none

/-- The message of the `BriefcaseCommandError` raised at lines 50-52 when the
host Python version tag is not "3.7" (`str.format` substitutes
`self.python_version_tag`). -/
def version_error_message (tag : String) : String :=
  "Found Python version " ++ tag ++ ". Android packaging currently\nrequires Python 3.7."

/-- Modelled from the spec: the outcome of one `download_url` call (the
Archive Fetcher, whose code is not under the staged sources). Spec section 4.1:
it downloads the archive and returns its local path; when the transport layer
cannot complete the request (connection refused, DNS failure, timeout) it
signals `requests.exceptions.ConnectionError` — the exception class
`verify_tools` imports from `requests.exceptions` and catches. -/
inductive FetchOutcome where
  | ok (local_path : FsPath)
  | connectionError
  deriving DecidableEq, Repr

/-- One possible world state for a `verify_tools` call: the host attributes the
method reads (`python_version_tag`, `Path.home()`, `host_os`), whether
`android_sdk_path.exists()`, how the download would turn out, the entries
`tools_bin.glob("*")` would list, and whether `sdkmanager --licenses` would
exit zero. -/
structure Host where
  python_version_tag : String
  home : FsPath
  host_os : String
  sdk_exists : Bool
  fetch : FetchOutcome
  tools_bin_entries : List String
  licenses_exit_zero : Bool
  deriving DecidableEq, Repr

/-- `ApkMixin.verify_tools` (lines 44-79). Checks the Python version tag; if
the SDK root exists, returns at once; otherwise downloads the SDK archive
(converting `ConnectionError` to `NetworkFailure("downloading Android SDK")`),
extracts it into the SDK root, deletes the archive, and then evaluates
`self.android_sdk_path_tmp` (line 70) — an attribute no class defines, so an
`AttributeError` escapes there. The remainder of the method (the permission
loop over `tools_bin.glob("*")` and the `sdkmanager --licenses` run) is
embedded under the `some` branch exactly as written at lines 70-79, which is
reachable only if some class had defined the attribute. -/
def verify_tools (h : Host) : List Effect × Except PyError Unit :=
  if h.python_version_tag ≠ "3.7" then
    ([], .error (.briefcaseCommandError (version_error_message h.python_version_tag)))
  else if h.sdk_exists then
    ([], .ok ())
  else
    let url := android_sdk_url h.host_os
    let download_path := h.home ++ [".briefcase", "tools"]
    match h.fetch with
    | .connectionError =>
        ([.print "Setting up Android SDK...", .download url download_path],
         .error (.networkFailure "downloading Android SDK"))
    | .ok zip_path =>
        let sdk := android_sdk_path h.home
        let pre : List Effect :=
          [.print "Setting up Android SDK...",
           .download url download_path,
           .extractall zip_path sdk,
           .unlink zip_path]
        match android_sdk_path_tmp with
        | none => (pre, .error (.attributeError "android_sdk_path_tmp"))
        | some tmp =>
            let tools_bin := tmp ++ ["tools", "bin"]
            let chmods := h.tools_bin_entries.map
              (fun entry => Effect.chmod (tools_bin ++ [entry]) 0o755)
            let license_args := [pathStr (tools_bin ++ ["sdkmanager"]), "--licenses"]
            let license_run := Effect.print "Ensuring all Android SDK licenses are accepted..."
            let run := Effect.subprocessRun license_args sdk
            if h.licenses_exit_zero then
              (pre ++ chmods ++ [license_run, run], .ok ())
            else
              (pre ++ chmods ++ [license_run, run],
               .error (.calledProcessError license_args))

/-- Python `dict(pairs)` lookup on an association list: the value of the last
pair carrying the key, if any (later pairs overwrite earlier ones, as in
`dict(list(...) + [...])` at lines 115-116). -/
def dictGet (l : List (String × String)) (k : String) : Option String :=
  (l.reverse.find? (fun p => p.1 == k)).map Prod.snd

/-- The environment handed to the gradle subprocess (lines 115-116):
`dict(list(self.os.environ.items()) + [("ANDROID_SDK_ROOT", str(self.android_sdk_path))])`,
as the association list the `dict` is built from. -/
def gradle_env (environ : List (String × String)) (home : FsPath) : List (String × String) :=
  environ ++ [("ANDROID_SDK_ROOT", pathStr (android_sdk_path home))]

/-- `ApkBuildCommand.build_app` (lines 104-127). Prints the banner, runs
`./gradlew assembleDebug` with `check=True` in the bundle directory under
`gradle_env`; on success additionally marks the binary executable; a
`CalledProcessError` from the non-zero exit is caught and re-raised as a
`BriefcaseCommandError` naming the app. `gradle_exit_zero` says how the gradle
subprocess would exit. -/
def build_app (environ : List (String × String)) (home bundle_dir platform_path : FsPath)
    (gradle_exit_zero : Bool) (app : App) : List Effect × Except PyError Unit :=
  let banner := Effect.print ("[" ++ app.app_name ++ "] Building Android APK...")
  let run := Effect.subprocessRunEnv ["./gradlew", "assembleDebug"]
    (gradle_env environ home) bundle_dir
  if gradle_exit_zero then
    ([banner, run, .chmod (binary_path platform_path app) 0o755], .ok ())
  else
    ([banner, run],
     .error (.briefcaseCommandError ("Error while building app " ++ app.app_name ++ ".")))

/-- The message of the `BriefcaseCommandError` raised at lines 189-195 when
`run_app` is called with `device=None`: the string literal after `.lstrip()`
(which removes nothing, the literal opening with a line continuation) and
`.format(adb=..., emulator=..., tools_bin=...)` (which substitutes nothing —
the literal contains no replacement field). -/
def missing_device_message : String :=
  "Please specify a specific device on which to run the app by passing\n`-d device_name`."

/-- `NO_OR_WRONG_DEVICE_MESSAGE` (lines 130-150) with `{adb}`, `{tools_bin}`
and `{emulator}` substituted as `run_app` does at lines 204-208. The two
backslash-newline pairs inside the Python literal are line continuations, so
each joins its line with the four-space indentation of the next. -/
def no_or_wrong_device_message (adb emulator tools_bin : String) : String :=
  "You can get a list of valid devices by running this command and looking in the\n"
    ++ "first column of output.\n\n$ " ++ adb ++ " devices -l\n\n"
    ++ "If you do not see any devices, you can create one by running these commands:\n\n"
    ++ "$ " ++ tools_bin ++ "/sdkmanager \"platforms;android-28\"     "
    ++ "\"system-images;android-28;default;x86\" \"emulator\" \"platform-tools\"\n\n"
    ++ "$ " ++ tools_bin ++ "/avdmanager --verbose create avd --name robotfriend     "
    ++ "--abi x86 --package \'system-images;android-28;default;x86\' --device pixel\n\n"
    ++ "$ " ++ emulator ++ " -avd robotfriend &\n\n"
    ++ "Then use adb find out the device name by running this command and looking\n"
    ++ "in the first column of output.\n\n$ " ++ adb ++ " devices -l\n"

/-- Modelled from the spec: the outcome of one `install_apk` call (from
`briefcase.integrations.adb`, whose code is not under the staged sources).
Spec section 4.4: the install step delegates one call to the device bridge,
and when the bridge reports the device as unknown the helper raises
`DeviceNotFound`, the exception class `run_app` imports and catches. -/
inductive InstallOutcome where
  | ok
  | deviceNotFound
  deriving DecidableEq, Repr

/-- One possible world state for a `run_app` call: the host attributes read,
how the install would turn out, and whether the force-stop and start
device-bridge calls would succeed (spec section 4.4 models their failures as
terminal tool errors, which `run_app` does not catch). -/
structure RunHost where
  home : FsPath
  platform_path : FsPath
  install_outcome : InstallOutcome
  stop_ok : Bool
  start_ok : Bool
  deriving DecidableEq, Repr

/-- `ApkRunCommand.run_app` (lines 179-221). With `device=None`, raises a
`BriefcaseCommandError` carrying `missing_device_message` before any external
call. Otherwise installs the APK (one device-bridge call); a `DeviceNotFound`
from the install is caught, two lines are printed, and a
`BriefcaseCommandError` carrying the formatted `NO_OR_WRONG_DEVICE_MESSAGE` is
raised. After a successful install, the package `bundle + "." + app_name` is
force-stopped and then started on `org.beeware.android.MainActivity`, one
device-bridge call each. -/
def run_app (h : RunHost) (app : App) (device : Option String) :
    List Effect × Except PyError Unit :=
  match device with
  | none => ([], .error (.briefcaseCommandError missing_device_message))
  | some d =>
      let sdk := android_sdk_path h.home
      let install := Effect.adbInstallApk sdk d (binary_path h.platform_path app)
      match h.install_outcome with
      | .deviceNotFound =>
          ([install,
            .print ("Device " ++ d ++ " not found."),
            .print ""],
           .error (.briefcaseCommandError (no_or_wrong_device_message
             (pathStr (sdk ++ ["platform-tools", "adb"]))
             (pathStr (sdk ++ ["emulator", "emulator"]))
             (pathStr (sdk ++ ["tools", "bin"])))))
      | .ok =>
          let package := app.bundle ++ "." ++ app.app_name
          let stop := Effect.adbForceStopApp sdk d package
          let start := Effect.adbStartApp sdk d package "org.beeware.android.MainActivity"
          if h.stop_ok then
            if h.start_ok then
              ([install, stop, start], .ok ())
            else
              ([install, stop, start], .error (.adbCommandError "start"))
          else
            ([install, stop], .error (.adbCommandError "force_stop"))

/-- Whether the character list `pat` occurs contiguously inside `s`
(an executable substring test used to compare the error messages). -/
def hasInfix : List Char → List Char → Bool
  | s, pat =>
    if pat.isPrefixOf s then true
    else
      match s with
      | [] => false
      | _ :: t => hasInfix t pat

end Apk

deriving instance DecidableEq for Except

namespace Apk

/-- C10: `distribution_path` always returns exactly `binary_path`: the
artifact packaged for distribution is the same fixed debug-APK path the build
step produces. -/
theorem distribution_path_eq_binary_path (platform_path : FsPath) (app : App) :
    distribution_path platform_path app = binary_path platform_path app := rfl

/-- C5: with the host Python version tag "3.7" and the toolchain root already
present, `verify_tools` returns normally with an empty effect trace — no
filesystem mutation, no network operation, no subprocess — whatever the rest
of the world looks like. -/
theorem verify_tools_existing_root_no_effects (home : FsPath) (host_os : String)
    (fetch : FetchOutcome) (entries : List String) (lic : Bool) :
    verify_tools ⟨"3.7", home, host_os, true, fetch, entries, lic⟩ = ([], .ok ()) := rfl

/-- C8: whenever the host Python version tag differs from "3.7",
`verify_tools` raises the environment-mismatch `BriefcaseCommandError` naming
the found version, with an empty effect trace — in particular no download is
attempted — regardless of whether the toolchain root exists. -/
theorem verify_tools_version_mismatch_no_download (h : Host)
    (hv : h.python_version_tag ≠ "3.7") :
    verify_tools h
      = ([], .error (.briefcaseCommandError
          (version_error_message h.python_version_tag))) := by
  simp [verify_tools, hv]

/-- Witness for C8: a host on Python "3.9" whose toolchain root exists. -/
theorem verify_tools_version_mismatch_no_download_witness :
    verify_tools ⟨"3.9", ["/home/u"], "Linux", true, .connectionError, [], true⟩
      = ([], .error (.briefcaseCommandError (version_error_message "3.9"))) :=
  verify_tools_version_mismatch_no_download _ (by decide)

/-- C7: when the download of the SDK archive fails with the transport-layer
`ConnectionError`, `verify_tools` raises `NetworkFailure` describing what was
being downloaded ("downloading Android SDK") instead of propagating the raw
transport exception; only the banner print and the attempted download are in
the trace. -/
theorem verify_tools_connection_error_becomes_network_failure (home : FsPath)
    (host_os : String) (entries : List String) (lic : Bool) :
    verify_tools ⟨"3.7", home, host_os, false, .connectionError, entries, lic⟩
      = ([.print "Setting up Android SDK...",
          .download (android_sdk_url host_os) (home ++ [".briefcase", "tools"])],
         .error (.networkFailure "downloading Android SDK")) := rfl

/-- C1: on a fresh (non-existent) toolchain root with host Python "3.7",
provisioning downloads the archive, extracts it into the toolchain root and
deletes it, and then crashes with an `AttributeError` reading the undefined
attribute `android_sdk_path_tmp` (line 70): the trace contains no `chmod` and
no subprocess invocation, so owner-execute permissions are never set and the
license-acceptance tool is never invoked — the claimed five-step sequence
never completes. -/
theorem verify_tools_fresh_root_crashes_before_chmod_and_licenses :
    verify_tools ⟨"3.7", ["/home/u"], "Linux", false,
        .ok ["/home/u", ".briefcase", "tools", "sdk-tools-linux-4333796.zip"],
        ["sdkmanager", "avdmanager"], true⟩
      = ([.print "Setting up Android SDK...",
          .download "https://dl.google.com/android/repository/sdk-tools-linux-4333796.zip"
            ["/home/u", ".briefcase", "tools"],
          .extractall ["/home/u", ".briefcase", "tools", "sdk-tools-linux-4333796.zip"]
            ["/home/u", ".briefcase", "tools", "android_sdk"],
          .unlink ["/home/u", ".briefcase", "tools", "sdk-tools-linux-4333796.zip"]],
         .error (.attributeError "android_sdk_path_tmp")) := by decide

/-- C2: calling `run_app` with no device raises a `BriefcaseCommandError`
with an empty effect trace (no install, force-stop or start call is made), but
the message it carries is only the two-line "pass `-d device_name`"
instruction: it does not contain the remediation script (checked here through
its "devices -l" listing command, which the real remediation message does
contain). -/
theorem run_app_no_device_fails_early_without_remediation :
    run_app ⟨["/home/u"], ["/plat"], .ok, true, true⟩ ⟨"myapp", "My App", "com.example"⟩ none
      = ([], .error (.briefcaseCommandError missing_device_message))
    ∧ hasInfix missing_device_message.toList "devices -l".toList = false
    ∧ hasInfix
        (no_or_wrong_device_message "adb" "emulator" "tools_bin").toList
        "devices -l".toList = true :=
  ⟨by decide, by decide, by decide⟩

/-- C3: when the install step raises `DeviceNotFound`, `run_app` fails with a
`BriefcaseCommandError` carrying the formatted device-remediation message, and
the trace holds exactly the one install call and two prints: the force-stop
and start calls are never invoked. -/
theorem run_app_device_not_found_short_circuits (home platform_path : FsPath)
    (s1 s2 : Bool) (app : App) (d : String) :
    run_app ⟨home, platform_path, .deviceNotFound, s1, s2⟩ app (some d)
      = ([.adbInstallApk (android_sdk_path home) d (binary_path platform_path app),
          .print ("Device " ++ d ++ " not found."),
          .print ""],
         .error (.briefcaseCommandError (no_or_wrong_device_message
           (pathStr (android_sdk_path home ++ ["platform-tools", "adb"]))
           (pathStr (android_sdk_path home ++ ["emulator", "emulator"]))
           (pathStr (android_sdk_path home ++ ["tools", "bin"]))))) := rfl

/-- C4: with a device given and every device-bridge call succeeding, `run_app`
performs exactly three device-bridge calls in the order install, force-stop,
start, all addressed to the same device `d`, with force-stop and start both
using the package identity `app.bundle ++ "." ++ app.app_name`. -/
theorem run_app_success_exactly_three_adb_calls (home platform_path : FsPath)
    (app : App) (d : String) :
    run_app ⟨home, platform_path, .ok, true, true⟩ app (some d)
      = ([.adbInstallApk (android_sdk_path home) d (binary_path platform_path app),
          .adbForceStopApp (android_sdk_path home) d (app.bundle ++ "." ++ app.app_name),
          .adbStartApp (android_sdk_path home) d (app.bundle ++ "." ++ app.app_name)
            "org.beeware.android.MainActivity"],
         .ok ()) := rfl

/-- C6: when the gradle subprocess exits non-zero, `build_app` fails with the
`BriefcaseCommandError` naming the specific app, and its trace holds only the
banner print and the gradle invocation: the `chmod` marking the artifact
executable is never executed. -/
theorem build_app_failure_names_app_and_skips_chmod (environ : List (String × String))
    (home bundle_dir platform_path : FsPath) (app : App) :
    build_app environ home bundle_dir platform_path false app
      = ([.print ("[" ++ app.app_name ++ "] Building Android APK..."),
          .subprocessRunEnv ["./gradlew", "assembleDebug"] (gradle_env environ home)
            bundle_dir],
         .error (.briefcaseCommandError
           ("Error while building app " ++ app.app_name ++ "."))) := rfl

/-- C9: `build_app` passes the gradle subprocess the environment
`gradle_env environ home`, and under dict lookup that environment binds
`ANDROID_SDK_ROOT` to the toolchain root path while every other key is bound
exactly as in the inherited environment (present and unchanged, and no other
key is added). -/
theorem build_app_env_is_inherited_plus_sdk_root (environ : List (String × String))
    (home bundle_dir platform_path : FsPath) (gradle_exit_zero : Bool) (app : App) :
    Effect.subprocessRunEnv ["./gradlew", "assembleDebug"] (gradle_env environ home)
        bundle_dir
      ∈ (build_app environ home bundle_dir platform_path gradle_exit_zero app).1
    ∧ dictGet (gradle_env environ home) "ANDROID_SDK_ROOT"
        = some (pathStr (android_sdk_path home))
    ∧ ∀ k, k ≠ "ANDROID_SDK_ROOT" →
        dictGet (gradle_env environ home) k = dictGet environ k := by
  refine ⟨?_, ?_, ?_⟩
  · cases gradle_exit_zero <;> simp [build_app]
  · simp [dictGet, gradle_env]
  · intro k hk
    simp [dictGet, gradle_env, List.find?_cons_of_neg, beq_eq_false_iff_ne, Ne.symm hk]

/-- Witness for C9: a one-variable inherited environment; its `PATH` survives
unchanged and `ANDROID_SDK_ROOT` is bound to the toolchain root. -/
theorem build_app_env_is_inherited_plus_sdk_root_witness :
    Effect.subprocessRunEnv ["./gradlew", "assembleDebug"]
        (gradle_env [("PATH", "/usr/bin")] ["/home/u"]) ["/proj"]
      ∈ (build_app [("PATH", "/usr/bin")] ["/home/u"] ["/proj"] ["/plat"] true
          ⟨"a", "A", "com.a"⟩).1
    ∧ dictGet (gradle_env [("PATH", "/usr/bin")] ["/home/u"]) "ANDROID_SDK_ROOT"
        = some (pathStr (android_sdk_path ["/home/u"]))
    ∧ dictGet (gradle_env [("PATH", "/usr/bin")] ["/home/u"]) "PATH"
        = dictGet [("PATH", "/usr/bin")] "PATH" :=
  ⟨(build_app_env_is_inherited_plus_sdk_root [("PATH", "/usr/bin")] ["/home/u"]
      ["/proj"] ["/plat"] true ⟨"a", "A", "com.a"⟩).1,
   (build_app_env_is_inherited_plus_sdk_root [("PATH", "/usr/bin")] ["/home/u"]
      ["/proj"] ["/plat"] true ⟨"a", "A", "com.a"⟩).2.1,
   (build_app_env_is_inherited_plus_sdk_root [("PATH", "/usr/bin")] ["/home/u"]
      ["/proj"] ["/plat"] true ⟨"a", "A", "com.a"⟩).2.2 "PATH" (by decide)⟩

end Apk
